import Mathlib

/-!
Shallow embedding of the two programs of this repository,
`src/exercise1_personal_info.cpp` (the personal-info calculator) and
`src/lesson1_variables.cpp` (the variable-types walkthrough), together with
theorems settling the specification's claims about them.

Modelling conventions:
* C++ `int` arithmetic is 32-bit two's-complement; every arithmetic result the
  programs compute on `int` is wrapped with `int32wrap`.
* C++ `double` and `long double` values are modelled as exact rationals; the
  programs only ever print them, and the claims under scrutiny state exact
  arithmetic on the source formulas.
* `std::string` is modelled as `String`; `std::string::length` counts bytes,
  which agrees with `String.length` on the ASCII literals appearing here.
* Console output is modelled as the list of emitted lines, one constructor per
  `std::cout` statement ending in `std::endl`, carrying exactly the dynamic
  values the statement prints.  Stream formatting state (`std::fixed`,
  `std::setprecision`, `std::boolalpha`) is threaded explicitly and recorded
  on the lines it affects.
-/

namespace Exercise1

/-- Wrap a mathematical integer into the value a 32-bit two's-complement
`int` holds, modelling C++ `int` arithmetic. -/
def int32wrap (x : Int) : Int := (x + 2 ^ 31) % 2 ^ 32 - 2 ^ 31

/-- The source-level variables declared at the top of `main` in
`exercise1_personal_info.cpp` (lines 10-16).  They are compile-time constants
meant to be edited by the reader, so the embedding takes them as parameters. -/
structure Inputs where
  name : String
  age : Int
  height : ℚ
  grade : Char
  isLearning : Bool
  hobby : String
  country : String
  deriving DecidableEq

/-- The placeholder values as committed in the source. -/
def defaultInputs : Inputs where
  name := "Your Name Here"
  age := 0
  height := 0
  grade := 'A'
  isLearning := true
  hobby := "Your favorite hobby"
  country := "Your Country"

/-- `int birthYear = 2025 - age;` (line 19). -/
def birthYear (i : Inputs) : Int := int32wrap (2025 - i.age)

/-- `double heightInCm = height * 100;` (line 20). -/
def heightInCm (i : Inputs) : ℚ := i.height * 100

/-- `age * 365` as printed on line 36. -/
def daysLived (i : Inputs) : Int := int32wrap (i.age * 365)

/-- `height * 39.37` as printed on line 37. -/
def heightInInches (i : Inputs) : ℚ := i.height * 39.37

/-- One output line of `exercise1_personal_info.cpp`, carrying the dynamic
values the corresponding `std::cout` statement prints. -/
inductive XLine where
  | headerBanner
  | fillInstruction
  | blank
  | infoHeader
  | nameOut (s : String)
  | ageOut (a : Int)
  | birthYearOut (y : Int)
  | heightOut (m cm : ℚ)
  | gradeOut (c : Char)
  | learningOut (s : String)
  | hobbyOut (s : String)
  | countryOut (s : String)
  | calcHeader
  | daysLivedOut (d : Int)
  | inchesOut (q : ℚ)
  | nameLengthOut (n : Nat)
  | closingOut
  deriving DecidableEq

/-- The full standard-output line sequence of `main`
(`exercise1_personal_info.cpp`, lines 5-41), in source order. -/
def output (i : Inputs) : List XLine :=
  [ .headerBanner,                                              -- line 5
    .fillInstruction,                                           -- line 6
    .blank,                                                     -- line 7
    .infoHeader,                                                -- line 23
    .nameOut i.name,                                            -- line 24
    .ageOut i.age,                                              -- line 25
    .birthYearOut (birthYear i),                                -- line 26
    .heightOut i.height (heightInCm i),                         -- line 27
    .gradeOut i.grade,                                          -- line 28
    .learningOut (if i.isLearning then "Yes!" else "No"),       -- line 29
    .hobbyOut i.hobby,                                          -- line 30
    .countryOut i.country,                                      -- line 31
    .blank,                                                     -- line 32
    .calcHeader,                                                -- line 35
    .daysLivedOut (daysLived i),                                -- line 36
    .inchesOut (heightInInches i),                              -- line 37
    .nameLengthOut i.name.length,                               -- line 38
    .blank,                                                     -- line 40
    .closingOut ]                                               -- line 41

/-- `return 0;` (line 43): the exit status, for every input. -/
def exitCode (_ : Inputs) : Int := 0

/-- Lines that print a field of the personal record (lines 24-31, the
`📋 Personal Information` block).  The height line also renders the derived
`heightInCm` alongside the stored `height`. -/
def isPersonalRecordLine : XLine → Bool
  | .nameOut _ | .ageOut _ | .heightOut _ _ | .gradeOut _
  | .learningOut _ | .hobbyOut _ | .countryOut _ => true
  | _ => false

/-- Lines whose printed payload is one of the four derived metrics. -/
def isDerivedMetricLine : XLine → Bool
  | .birthYearOut _ | .daysLivedOut _ | .inchesOut _ => true
  | _ => false

/-- The two derived-metric lines of the `🔢 Fun Calculations` block. -/
def isLateDerivedLine : XLine → Bool
  | .daysLivedOut _ | .inchesOut _ => true
  | _ => false

/-- The name-character-count line (line 38). -/
def isNameLengthLine : XLine → Bool
  | .nameLengthOut _ => true
  | _ => false

/-- The inputs of spec test 4: `age=30`, `height=1.75`, other fields left at
their placeholders. -/
def inputs30 : Inputs := { defaultInputs with age := 30, height := 1.75 }

/-- The inputs of spec boundary test 6: `age=-5`. -/
def inputsNeg5 : Inputs := { defaultInputs with age := -5 }

/-- Constructor discriminator, used to state that the line sequence's shape
(which lines are printed, in which order) does not depend on the inputs. -/
def lineTag : XLine → Nat
  | .headerBanner => 0
  | .fillInstruction => 1
  | .blank => 2
  | .infoHeader => 3
  | .nameOut _ => 4
  | .ageOut _ => 5
  | .birthYearOut _ => 6
  | .heightOut _ _ => 7
  | .gradeOut _ => 8
  | .learningOut _ => 9
  | .hobbyOut _ => 10
  | .countryOut _ => 11
  | .calcHeader => 12
  | .daysLivedOut _ => 13
  | .inchesOut _ => 14
  | .nameLengthOut _ => 15
  | .closingOut => 16

end Exercise1

namespace Lesson1

/-! The source-level sample values of `lesson1_variables.cpp` (they are fixed
literals, never mutated). -/

/-- `int age = 25;` (line 11). -/
def age : Int := 25

/-- `short smallNumber = 100;` (line 12). -/
def smallNumber : Int := 100

/-- `long largeNumber = 1000000L;` (line 13). -/
def largeNumber : Int := 1000000

/-- `long long veryLarge = 123456789012345LL;` (line 14). -/
def veryLarge : Int := 123456789012345

/-- `float price = 19.99f;` (line 24). -/
def price : ℚ := 19.99

/-- `double distance = 384400.5;` (line 25). -/
def distance : ℚ := 384400.5

/-- `long double precise = 3.14159265358979323846L;` (line 26). -/
def precise : ℚ := 3.14159265358979323846

/-- `char grade = 'A';` (line 37). -/
def grade : Char := 'A'

/-- `char symbol = '$';` (line 38). -/
def symbol : Char := '$'

/-- `bool isStudent = true;` (line 46). -/
def isStudent : Bool := true

/-- `bool hasLicense = false;` (line 47). -/
def hasLicense : Bool := false

/-- `std::string firstName = "John";` (line 56). -/
def firstName : String := "John"

/-- `std::string lastName = "Doe";` (line 57). -/
def lastName : String := "Doe"

/-- `std::string fullName = firstName + " " + lastName;` (line 58). -/
def fullName : String := firstName ++ " " ++ lastName

/-- `const double PI = 3.14159;` (line 68). -/
def PI : ℚ := 3.14159

/-- `const int DAYS_IN_WEEK = 7;` (line 69). -/
def DAYS_IN_WEEK : Int := 7

/-- `auto autoInt = 42;` (line 77). -/
def autoInt : Int := 42

/-- `auto autoDouble = 3.14;` (line 78). -/
def autoDouble : ℚ := 3.14

/-- `auto autoString = std::string("Hello");` (line 79). -/
def autoString : String := "Hello"

/-- `int globalVar = 100;` (line 88, the outer value of the scope demo). -/
def globalVar : Int := 100

/-- `int localVar = 200;` (line 90, the block-local value of the scope demo). -/
def localVar : Int := 200

/-- The `std::cout` formatting state the stream manipulators mutate. -/
structure FmtState where
  precision : Nat
  fixedFmt : Bool
  boolalphaFlag : Bool
  deriving DecidableEq

/-- The C++ stream's initial formatting state (default precision 6, neither
`std::fixed` nor `std::boolalpha` set). -/
def initFmt : FmtState := { precision := 6, fixedFmt := false, boolalphaFlag := false }

/-- State after `std::cout << std::fixed << std::setprecision(2);` (line 28). -/
def fmtAfterSetPrec2 : FmtState := { initFmt with fixedFmt := true, precision := 2 }

/-- State after `std::cout << std::setprecision(10);` (line 31). -/
def fmtAfterSetPrec10 : FmtState := { fmtAfterSetPrec2 with precision := 10 }

/-- State after `std::cout << std::boolalpha;` (line 49). -/
def fmtAfterBoolalpha : FmtState := { fmtAfterSetPrec10 with boolalphaFlag := true }

/-- One output line of `lesson1_variables.cpp`.  A floating-point line records
the stream precision in effect when it is printed; a boolean line records
whether `std::boolalpha` is in effect. -/
inductive LLine where
  | headerBanner
  | blank
  | sec1Header
  | ageOut (v : Int)
  | smallNumberOut (v : Int)
  | largeNumberOut (v : Int)
  | veryLargeOut (v : Int)
  | sec2Header
  | priceOut (v : ℚ) (prec : Nat)
  | distanceOut (v : ℚ) (prec : Nat)
  | preciseOut (v : ℚ) (prec : Nat)
  | sec3Header
  | gradeOut (c : Char)
  | symbolOut (c : Char)
  | sec4Header
  | isStudentOut (b : Bool) (alpha : Bool)
  | hasLicenseOut (b : Bool) (alpha : Bool)
  | sec5Header
  | firstNameOut (s : String)
  | lastNameOut (s : String)
  | fullNameOut (s : String)
  | stringLengthOut (n : Nat)
  | sec6Header
  | piOut (v : ℚ) (prec : Nat)
  | daysInWeekOut (v : Int)
  | sec7Header
  | autoIntOut (v : Int)
  | autoDoubleOut (v : ℚ) (prec : Nat)
  | autoStringOut (s : String)
  | sec8Header
  | insideGlobalOut (v : Int)
  | insideLocalOut (v : Int)
  | outsideGlobalOut (v : Int)
  | closing
  deriving DecidableEq

/-- Output of `main` up to and including the `8. VARIABLE SCOPE:` header
(`lesson1_variables.cpp`, lines 6-87): everything printed before the nested
scope block of lines 89-93 opens. -/
def outputBeforeBlock : List LLine :=
  [ .headerBanner, .blank,
    .sec1Header, .ageOut age, .smallNumberOut smallNumber,
    .largeNumberOut largeNumber, .veryLargeOut veryLarge, .blank,
    .sec2Header,
    .priceOut price fmtAfterSetPrec2.precision,
    .distanceOut distance fmtAfterSetPrec2.precision,
    .preciseOut precise fmtAfterSetPrec10.precision, .blank,
    .sec3Header, .gradeOut grade, .symbolOut symbol, .blank,
    .sec4Header,
    .isStudentOut isStudent fmtAfterBoolalpha.boolalphaFlag,
    .hasLicenseOut hasLicense fmtAfterBoolalpha.boolalphaFlag, .blank,
    .sec5Header, .firstNameOut firstName, .lastNameOut lastName,
    .fullNameOut fullName, .stringLengthOut fullName.length, .blank,
    .sec6Header, .piOut PI fmtAfterSetPrec10.precision,
    .daysInWeekOut DAYS_IN_WEEK, .blank,
    .sec7Header, .autoIntOut autoInt,
    .autoDoubleOut autoDouble fmtAfterSetPrec10.precision,
    .autoStringOut autoString, .blank,
    .sec8Header ]

/-- Output emitted inside the nested scope block (lines 91-92). -/
def outputInsideBlock : List LLine :=
  [ .insideGlobalOut globalVar, .insideLocalOut localVar ]

/-- Output emitted after the nested scope block closes (lines 95-98). -/
def outputAfterBlock : List LLine :=
  [ .outsideGlobalOut globalVar, .blank, .closing ]

/-- The full standard-output line sequence of `main` in
`lesson1_variables.cpp`. -/
def lessonOutput : List LLine :=
  outputBeforeBlock ++ outputInsideBlock ++ outputAfterBlock

/-- `return 0;` (line 100): the exit status. -/
def lessonExit : Int := 0

/-- Lines that print the block-local value `localVar`. -/
def mentionsLocalVar : LLine → Bool
  | .insideLocalOut _ => true
  | _ => false

/-- Lines that print the outer value `globalVar` of the scope demo. -/
def mentionsGlobalVar : LLine → Bool
  | .insideGlobalOut _ | .outsideGlobalOut _ => true
  | _ => false

/-- The sample values `lesson1_variables.cpp` declares, one tag per declared
variable. -/
inductive SampleVar where
  | ageV | smallNumberV | largeNumberV | veryLargeV
  | priceV | distanceV | preciseV
  | gradeV | symbolV
  | isStudentV | hasLicenseV
  | firstNameV | lastNameV | fullNameV
  | piV | daysInWeekV
  | autoIntV | autoDoubleV | autoStringV
  | globalVarV | localVarV
  deriving DecidableEq, BEq

/-- Every sample value the program declares, in declaration order. -/
def allSampleVars : List SampleVar :=
  [ .ageV, .smallNumberV, .largeNumberV, .veryLargeV,
    .priceV, .distanceV, .preciseV,
    .gradeV, .symbolV,
    .isStudentV, .hasLicenseV,
    .firstNameV, .lastNameV, .fullNameV,
    .piV, .daysInWeekV,
    .autoIntV, .autoDoubleV, .autoStringV,
    .globalVarV, .localVarV ]

/-- The sample value a labelled output line displays, if any.  Headers and
blank separators display none; the `String length:` line (source line 63)
prints a property of `fullName`, not a labelled `name = value` line. -/
def displayedVar : LLine → Option SampleVar
  | .ageOut _ => some .ageV
  | .smallNumberOut _ => some .smallNumberV
  | .largeNumberOut _ => some .largeNumberV
  | .veryLargeOut _ => some .veryLargeV
  | .priceOut _ _ => some .priceV
  | .distanceOut _ _ => some .distanceV
  | .preciseOut _ _ => some .preciseV
  | .gradeOut _ => some .gradeV
  | .symbolOut _ => some .symbolV
  | .isStudentOut _ _ => some .isStudentV
  | .hasLicenseOut _ _ => some .hasLicenseV
  | .firstNameOut _ => some .firstNameV
  | .lastNameOut _ => some .lastNameV
  | .fullNameOut _ => some .fullNameV
  | .piOut _ _ => some .piV
  | .daysInWeekOut _ => some .daysInWeekV
  | .autoIntOut _ => some .autoIntV
  | .autoDoubleOut _ _ => some .autoDoubleV
  | .autoStringOut _ => some .autoStringV
  | .insideGlobalOut _ => some .globalVarV
  | .outsideGlobalOut _ => some .globalVarV
  | .insideLocalOut _ => some .localVarV
  | _ => none

/-- How many output lines display the given sample value. -/
def countLinesFor (v : SampleVar) : Nat :=
  lessonOutput.countP (fun l => displayedVar l == some v)

/-- Whether a list of section numbers is nondecreasing: the sections appear
in their fixed order. -/
def nondecreasingB : List Nat → Bool
  | [] => true
  | [_] => true
  | a :: b :: t => a ≤ b && nondecreasingB (b :: t)

/-- The section (1-8, numbered as in the source's headers) a line belongs to;
the opening banner, blank separators and the closing line belong to none. -/
def sectionOf : LLine → Option Nat
  | .sec1Header | .ageOut _ | .smallNumberOut _ | .largeNumberOut _
  | .veryLargeOut _ => some 1
  | .sec2Header | .priceOut _ _ | .distanceOut _ _ | .preciseOut _ _ => some 2
  | .sec3Header | .gradeOut _ | .symbolOut _ => some 3
  | .sec4Header | .isStudentOut _ _ | .hasLicenseOut _ _ => some 4
  | .sec5Header | .firstNameOut _ | .lastNameOut _ | .fullNameOut _
  | .stringLengthOut _ => some 5
  | .sec6Header | .piOut _ _ | .daysInWeekOut _ => some 6
  | .sec7Header | .autoIntOut _ | .autoDoubleOut _ _ | .autoStringOut _ => some 7
  | .sec8Header | .insideGlobalOut _ | .insideLocalOut _
  | .outsideGlobalOut _ => some 8
  | _ => none

end Lesson1

/-- A run of the personal-info calculator in an arbitrary ambient environment
`env`: the source performs no reads (no stdin, argv, environment variables,
clocks or randomness), so the observable result — the output lines and the
exit status — is a function of the source-level variables alone. -/
def exerciseRun {E : Type} (i : Exercise1.Inputs) (_env : E) :
    List Exercise1.XLine × Int :=
  (Exercise1.output i, Exercise1.exitCode i)

/-- A run of the variable-types walkthrough in an arbitrary ambient
environment `env`; like `exerciseRun`, the source performs no reads. -/
def lessonRun {E : Type} (_env : E) : List Lesson1.LLine × Int :=
  (Lesson1.lessonOutput, Lesson1.lessonExit)

/-! Theorems settling the specification's claims. -/

namespace Exercise1

/-- C1 counterexample: with the default placeholders the program does not
print a name length of 15 — `"Your Name Here"` has 14 characters. -/
theorem default_name_length_not_fifteen :
    XLine.nameLengthOut 15 ∉ output defaultInputs := by decide

/-- C1 (amended): with the default placeholder values the derived outputs are
birthYear = 2025, heightInCm = 0, daysLived = 0, heightInInches = 0, and the
printed name length is 14 (the character count of `"Your Name Here"`). -/
theorem default_values_amended :
    birthYear defaultInputs = 2025 ∧
    heightInCm defaultInputs = 0 ∧
    daysLived defaultInputs = 0 ∧
    heightInInches defaultInputs = 0 ∧
    defaultInputs.name.length = 14 ∧
    XLine.birthYearOut 2025 ∈ output defaultInputs ∧
    XLine.heightOut 0 0 ∈ output defaultInputs ∧
    XLine.daysLivedOut 0 ∈ output defaultInputs ∧
    XLine.inchesOut 0 ∈ output defaultInputs ∧
    XLine.nameLengthOut 14 ∈ output defaultInputs := by
  have hb : birthYear defaultInputs = 2025 := by decide
  have hd : daysLived defaultInputs = 0 := by decide
  have hcm : heightInCm defaultInputs = 0 := by norm_num [heightInCm, defaultInputs]
  have hin : heightInInches defaultInputs = 0 := by
    norm_num [heightInInches, defaultInputs]
  have hn : defaultInputs.name.length = 14 := by decide
  have hh : defaultInputs.height = 0 := by norm_num [defaultInputs]
  refine ⟨hb, hcm, hd, hin, hn, ?_, ?_, ?_, ?_, ?_⟩ <;>
    simp [output, hb, hcm, hd, hin, hn, hh]

/-- C2 counterexample: it is not the case that every derived-metric line
appears after every personal-record line — the birthYear line (position 6) is
printed before the grade line (position 8); likewise heightInCm is rendered on
the height line, before grade, hobby and country. -/
theorem derived_after_record_fails :
    ¬ ∀ i j : Nat,
        isPersonalRecordLine ((output defaultInputs).getD i .blank) = true →
        isDerivedMetricLine ((output defaultInputs).getD j .blank) = true →
        j > i :=
  fun h => absurd (h 8 6 (by decide) (by decide)) (by decide)

/-- C2 (amended): the personal-record lines occupy positions 4-11; the
`Fun Calculations` metrics (daysLived, heightInInches) appear only after them,
and the name-length line (position 16) is last of the three groups; but the
birthYear metric is printed at position 6 and heightInCm on the height line at
position 7, inside the personal-record block. -/
theorem ordering_amended (i : Inputs) :
    ((output i).drop 12).all (fun l => !isPersonalRecordLine l) = true ∧
    ((output i).take 14).all (fun l => !isLateDerivedLine l) = true ∧
    ((output i).take 16).all (fun l => !isNameLengthLine l) = true ∧
    ((output i).drop 17).all
      (fun l => !(isPersonalRecordLine l || isDerivedMetricLine l ||
                  isNameLengthLine l)) = true ∧
    (output i).getD 6 .blank = .birthYearOut (birthYear i) ∧
    (output i).getD 7 .blank = .heightOut i.height (heightInCm i) ∧
    (output i).getD 4 .blank = .nameOut i.name ∧
    (output i).getD 11 .blank = .countryOut i.country ∧
    (output i).getD 16 .blank = .nameLengthOut i.name.length :=
  ⟨rfl, rfl, rfl, rfl, rfl, rfl, rfl, rfl, rfl⟩

/-- C4: with age = 30 and height = 1.75 the derived values are
birthYear = 1995, heightInCm = 175, daysLived = 10950 and
heightInInches = 68.8975, and they are what the program prints. -/
theorem age30_derived_values :
    birthYear inputs30 = 1995 ∧
    heightInCm inputs30 = 175 ∧
    daysLived inputs30 = 10950 ∧
    heightInInches inputs30 = 68.8975 ∧
    XLine.birthYearOut 1995 ∈ output inputs30 ∧
    XLine.heightOut 1.75 175 ∈ output inputs30 ∧
    XLine.daysLivedOut 10950 ∈ output inputs30 ∧
    XLine.inchesOut 68.8975 ∈ output inputs30 := by
  have hb : birthYear inputs30 = 1995 := by decide
  have hd : daysLived inputs30 = 10950 := by decide
  have hcm : heightInCm inputs30 = 175 := by
    norm_num [heightInCm, inputs30, defaultInputs]
  have hin : heightInInches inputs30 = 68.8975 := by
    norm_num [heightInInches, inputs30, defaultInputs]
  have hh : inputs30.height = 1.75 := by norm_num [inputs30, defaultInputs]
  refine ⟨hb, hcm, hd, hin, ?_, ?_, ?_, ?_⟩ <;>
    simp [output, hb, hcm, hd, hin, hh]

/-- C5: for every input the derived values are computed unconditionally by the
source formulas and printed, and the run ends with the success status; in
particular at age = -5 the program prints birthYear = 2030 and
daysLived = -1825 and still exits with 0. -/
theorem unconditional_arithmetic (i : Inputs) :
    birthYear i = int32wrap (2025 - i.age) ∧
    daysLived i = int32wrap (i.age * 365) ∧
    XLine.birthYearOut (birthYear i) ∈ output i ∧
    XLine.daysLivedOut (daysLived i) ∈ output i ∧
    exitCode i = 0 ∧
    birthYear inputsNeg5 = 2030 ∧
    daysLived inputsNeg5 = -1825 ∧
    exitCode inputsNeg5 = 0 := by
  refine ⟨rfl, rfl, ?_, ?_, rfl, by decide, by decide, rfl⟩ <;> simp [output]

/-- C9: the learning flag is rendered as the text `"Yes!"` when true and
`"No"` when false, and the ternary is the only data-dependent branch: the
shape of the output — which lines are printed, in which order — is the same
for all inputs. -/
theorem learning_ternary (i j : Inputs) :
    ((output i).map lineTag = (output j).map lineTag) ∧
    (i.isLearning = true → XLine.learningOut "Yes!" ∈ output i) ∧
    (i.isLearning = false → XLine.learningOut "No" ∈ output i) ∧
    (∀ s, XLine.learningOut s ∈ output i → s = "Yes!" ∨ s = "No") := by
  refine ⟨rfl, ?_, ?_, ?_⟩
  · intro h; simp [output, h]
  · intro h; simp [output, h]
  · intro s hs
    simp [output] at hs
    cases hL : i.isLearning
    · rw [hL] at hs; simp at hs; exact Or.inr hs
    · rw [hL] at hs; simp at hs; exact Or.inl hs

end Exercise1

namespace Lesson1

/-- C3 counterexample: no line printed before the scope block opens mentions
the outer value `globalVar` — the first outer-value line is emitted inside the
block, not before it. -/
theorem no_outer_line_before_block :
    ¬ ∃ l ∈ outputBeforeBlock, mentionsGlobalVar l = true := by decide

/-- C3 (amended): the block-local line (position 38) appears strictly before
the post-block outer-value line (position 39); no line after the block
references the block-local value; and the outer value is printed both inside
the block (position 37) and after the block — not before it. -/
theorem scope_amended :
    lessonOutput.getD 38 .blank = .insideLocalOut localVar ∧
    lessonOutput.getD 39 .blank = .outsideGlobalOut globalVar ∧
    lessonOutput.countP mentionsLocalVar = 1 ∧
    (outputAfterBlock.all fun l => !mentionsLocalVar l) = true ∧
    outputInsideBlock.countP mentionsGlobalVar = 1 ∧
    outputAfterBlock.countP mentionsGlobalVar = 1 ∧
    lessonOutput.getD 37 .blank = .insideGlobalOut globalVar := by decide

/-- C6 counterexample: the outer scope variable `globalVar` is displayed by
two labelled lines (inside and outside the block), so the output does not
contain exactly one labelled line per declared sample value. -/
theorem globalVar_two_lines :
    countLinesFor SampleVar.globalVarV = 2 ∧
    countLinesFor SampleVar.globalVarV ≠ 1 := by decide

/-- C6 (amended): every declared sample value is displayed by exactly one
labelled line except `globalVar`, which is displayed by two (inside and
outside the scope block); the sections appear in the fixed order 1-8; and in
the floating-point section `price` and `distance` are rendered at precision 2
and `precise` at precision 10. -/
theorem lines_sections_amended :
    (allSampleVars.all fun v => v == SampleVar.globalVarV ||
      countLinesFor v == 1) = true ∧
    countLinesFor SampleVar.globalVarV = 2 ∧
    lessonOutput.filterMap sectionOf =
      [1, 1, 1, 1, 1, 2, 2, 2, 2, 3, 3, 3, 4, 4, 4, 5, 5, 5, 5, 5,
       6, 6, 6, 7, 7, 7, 7, 8, 8, 8, 8] ∧
    nondecreasingB (lessonOutput.filterMap sectionOf) = true ∧
    lessonOutput.getD 9 LLine.blank = LLine.priceOut price 2 ∧
    lessonOutput.getD 10 LLine.blank = LLine.distanceOut distance 2 ∧
    lessonOutput.getD 11 LLine.blank = LLine.preciseOut precise 10 := by
  refine ⟨by decide, by decide, by decide, by decide, rfl, rfl, rfl⟩

/-- C10: `fullName` is the concatenation `firstName ++ " " ++ lastName`, its
printed length is additive over the concatenation — length(firstName) +
length(lastName) + 1 — and with the given literals the printed length is 8;
the additivity holds for any two strings joined this way. -/
theorem fullName_length_additive :
    fullName = firstName ++ " " ++ lastName ∧
    fullName.length = firstName.length + lastName.length + 1 ∧
    LLine.stringLengthOut fullName.length ∈ lessonOutput ∧
    fullName.length = 8 ∧
    ∀ f l : String, (f ++ " " ++ l).length = f.length + l.length + 1 := by
  refine ⟨rfl, by decide, by decide, by decide, ?_⟩
  intro f l
  have h1 : (" " : String).length = 1 := rfl
  simp [String.length_append, h1]
  omega

end Lesson1

/-- C7: each component is deterministic — its observable result (output lines
and exit status) is a function of the source-level values alone, so two runs
in arbitrary ambient environments produce identical output. -/
theorem runs_byte_identical {E : Type} (e1 e2 : E) (i : Exercise1.Inputs) :
    exerciseRun i e1 = exerciseRun i e2 ∧ lessonRun e1 = lessonRun e2 :=
  ⟨rfl, rfl⟩

/-- C8: both components terminate with the success status 0 on every run —
there is no conditional exit path — and the final output line of each is its
fixed closing celebratory line. -/
theorem terminates_with_success (i : Exercise1.Inputs) :
    Exercise1.exitCode i = 0 ∧
    (Exercise1.output i).getLast? = some Exercise1.XLine.closingOut ∧
    Lesson1.lessonExit = 0 ∧
    Lesson1.lessonOutput.getLast? = some Lesson1.LLine.closing :=
  ⟨rfl, rfl, rfl, by decide⟩
